import Mathlib

/-!
Verification of the watch-state reconciliation engine of fs.notify
(src/notify.js), a Node.js file-change notification layer.

The JavaScript source is embedded shallowly:

* the per-instance state (the maps `FSWatchers`, `FStats`, `retries` and
  the `maxRetries` field set up in the constructor, lines 14-22) becomes
  the structure `NotifyState`, with string-keyed association lists for
  the maps;
* each prototype method becomes a Lean function from the state (and the
  ambient filesystem) to a `JsOutcome`: the state after the call, the
  list of events emitted during it, and whether a JavaScript exception
  propagated out of it.  JavaScript exceptions do not roll back state or
  already-emitted events, so the outcome carries all three.
* the filesystem is a parameter `FS := String -> Option Stats`; `none`
  models a failing stat.

The file is "use strict" (line 1), so the embedding takes the strict
semantics of the slips present in the source:

* line 165, `fs.stat(fs, function stats(err, stat) ...)`: the first
  argument of `fs.stat` is the `fs` module object, not a path string.
  Every Node.js version validates the path argument of `fs.stat` and
  throws a synchronous TypeError for a non-string (node 0.x:
  THROW_BAD_ARGS in node_file.cc; modern node: ERR_INVALID_ARG_TYPE).
  The callback never runs.
* line 120, `fs.stat(function stats(err, stat) ...)`: no path argument
  at all; same synchronous TypeError.
* line 42, `async.filter(files, fs.exist, ...)`: the property
  `fs.exist` does not exist on the fs module (the real API is
  `fs.exists`), so the predicate is `undefined`; the async library
  invokes it once per element, so for a non-empty array the call throws
  a synchronous TypeError ("undefined is not a function") before any
  registration.  For an empty array the callback receives `[]` and
  nothing happens.
* lines 138 and 142 (`reset`) and line 190 (`error`):
  `this.FSWatcher[path]` reads the field `FSWatcher`, which is never
  assigned (the constructor defines `FSWatchers`); a property access on
  `undefined` throws a TypeError.

These TypeErrors are modelled by `JsError.typeError` in the `thrown`
field of the outcome.
-/

namespace FsNotify

/-! ### String-keyed association lists

`FSWatchers` and `FStats` are plain JavaScript objects used as maps
keyed by the path string. -/

/-- Lookup in a string-keyed association list (JavaScript `obj[key]`,
`none` standing for `undefined`). -/
def alookup {α : Type} (k : String) : List (String × α) → Option α
  | [] => none
  | e :: rest => if e.1 = k then some e.2 else alookup k rest

/-- Removal of a key (JavaScript `delete obj[key]`). -/
def aerase {α : Type} (k : String) (l : List (String × α)) : List (String × α) :=
  l.filter (fun e => e.1 != k)

/-- Assignment `obj[key] = v`: at most one entry per key is kept. -/
def ainsert {α : Type} (k : String) (v : α) (l : List (String × α)) : List (String × α) :=
  (k, v) :: aerase k l

/-- Key set (JavaScript `Object.keys`). -/
def akeys {α : Type} (l : List (String × α)) : List String :=
  l.map Prod.fst

theorem mem_akeys_aerase {α : Type} (q k : String) (l : List (String × α)) :
    q ∈ akeys (aerase k l) ↔ q ∈ akeys l ∧ q ≠ k := by
  induction l with
  | nil => simp [aerase, akeys]
  | cons e rest ih =>
      by_cases he : e.1 = k
      · have h1 : aerase k (e :: rest) = aerase k rest := by
          simp [aerase, List.filter_cons, he]
        have h3 : akeys (e :: rest) = e.1 :: akeys rest := rfl
        rw [h1, ih, h3]
        simp only [List.mem_cons]
        constructor
        · rintro ⟨hm, hq⟩
          exact ⟨Or.inr hm, hq⟩
        · rintro ⟨hm | hm, hq⟩
          · exact absurd (hm.trans he) hq
          · exact ⟨hm, hq⟩
      · have h1 : aerase k (e :: rest) = e :: aerase k rest := by
          simp [aerase, List.filter_cons, he]
        have h2 : akeys (e :: aerase k rest) = e.1 :: akeys (aerase k rest) := rfl
        have h3 : akeys (e :: rest) = e.1 :: akeys rest := rfl
        rw [h1, h2, h3]
        simp only [List.mem_cons]
        rw [ih]
        constructor
        · rintro (h | ⟨hm, hq⟩)
          · exact ⟨Or.inl h, fun hk => he (h.symm.trans hk)⟩
          · exact ⟨Or.inr hm, hq⟩
        · rintro ⟨h | h, hq⟩
          · exact Or.inl h
          · exact Or.inr ⟨h, hq⟩

theorem mem_akeys_ainsert {α : Type} (q k : String) (v : α) (l : List (String × α)) :
    q ∈ akeys (ainsert k v l) ↔ q = k ∨ q ∈ akeys l := by
  have h1 : akeys (ainsert k v l) = k :: akeys (aerase k l) := rfl
  rw [h1]
  simp only [List.mem_cons]
  rw [mem_akeys_aerase]
  constructor
  · rintro (h | ⟨hm, _⟩)
    · exact Or.inl h
    · exact Or.inr hm
  · rintro (h | h)
    · exact Or.inl h
    · by_cases hq : q = k
      · exact Or.inl hq
      · exact Or.inr ⟨h, hq⟩

/-! ### Data model -/

/-- A stat snapshot (`fs.Stats`): modification time, the directory
flag, and the size.  `mtime` is the encoded instant; `mtimeRef` models
the identity of the JavaScript `Date` object holding it, since line 124
compares `current.mtime !== stat.mtime`, which is a reference
comparison between two `Date` objects, not a comparison of instants. -/
structure Stats where
  mtime : Nat
  mtimeRef : Nat
  isDir : Bool
  size : Nat
  deriving DecidableEq, Repr

/-- The ambient filesystem: a successful stat for the paths that exist. -/
def FS : Type := String → Option Stats

/-- The JavaScript exceptions the embedded code can raise. -/
inductive JsError where
  | typeError
  deriving DecidableEq, Repr

/-- Public events emitted on the instance.  The `change` payload can
carry `undefined` as the file argument (line 172 can select the raw
`filename` even when it is absent), hence `Option String`. -/
inductive Event where
  | change (file : Option String) (stat : Stats)
  | removed (path : String)
  | closed
  deriving DecidableEq, Repr

/-- An OS watch handle as the handlers see it: the `fs.watch` result,
tagged with the path it was created for (line 93, `FSWatcher.path`). -/
structure FSWatcher where
  id : Nat
  path : String
  deriving DecidableEq, Repr

/-- The per-instance state set up by the constructor (lines 14-22):
`FSWatchers` stores the watchers (the handle id), `FStats` the latest
stats, `retries` the per-path retry counters, `maxRetries` the retry
bound (default 5). -/
structure NotifyState where
  FSWatchers : List (String × Nat)
  FStats : List (String × Stats)
  retries : List (String × Nat)
  maxRetries : Nat
  deriving DecidableEq, Repr

/-- The state a fresh `new Notify()` starts from (lines 15-19). -/
def NotifyState.init : NotifyState :=
  { FSWatchers := [], FStats := [], retries := [], maxRetries := 5 }

/-- The observable outcome of running one method: the state it leaves
behind, the events it emitted (in order), and the exception that
propagated out of it, if any.  A thrown exception does not undo state
updates or emissions that happened before the throw. -/
structure JsOutcome where
  state : NotifyState
  events : List Event
  thrown : Option JsError
  deriving DecidableEq, Repr

/-- Outcome of a method that returns normally having done nothing. -/
def JsOutcome.pure (st : NotifyState) : JsOutcome :=
  { state := st, events := [], thrown := none }

/-! ### Method embeddings -/

/-- Truthiness of the string `FSWatcher.path` in the condition of
line 111: the empty string is falsy in JavaScript. -/
def truthyStr (s : String) : Bool :=
  s != ""

/-- Falsiness of the `filename` argument in line 159: `undefined` and
`null` (both modelled by `none`) and the empty string are falsy. -/
def falsyName (filename : Option String) : Bool :=
  match filename with
  | none => true
  | some s => s == ""

/-- Lines 111-113: the list of files the manual sweep visits.  With a
watcher whose `path` is truthy the sweep is scoped to that single path,
otherwise it covers every key of `FStats`. -/
def sweepFiles (st : NotifyState) (w : Option FSWatcher) : List String :=
  match w with
  | some w => if truthyStr w.path then [w.path] else akeys st.FStats
  | none => akeys st.FStats

/-- Lines 116-128, the `files.forEach(test)` loop of `manually`.  A
file with no cached stat is skipped (line 118, unknown file).  For a
file with a cached stat the loop reaches line 120,
`fs.stat(function stats(err, stat) ...)`: `fs.stat` receives the
callback as its only argument, so its path argument is a function
value; `fs.stat` validates the path and throws a synchronous TypeError,
which aborts the whole `forEach`.  The comparison and emission of
lines 124-126 are therefore unreachable. -/
def manuallyLoop (st : NotifyState) : List String → Option JsError
  | [] => none
  | f :: rest =>
      match alookup f st.FStats with
      | none => manuallyLoop st rest
      | some _ => some JsError.typeError

/-- Lines 124-126, the body the stats callback of `manually` would run
on a successful stat if the stat call of line 120 were well formed.
The JavaScript comparison `current.mtime !== stat.mtime` compares the
two `Date` objects by reference, modelled on `mtimeRef`; two snapshots
of the same instant held in distinct `Date` objects count as changed,
and re-reading the very same cached object counts as unchanged.  In the
source this code is unreachable (see `manuallyLoop`); it is embedded
separately so the comparison can be inspected.  Note the cache entry is
not refreshed even here. -/
def manuallyTestBody (file : String) (current fresh : Stats) : List Event :=
  if current.mtimeRef != fresh.mtimeRef then [Event.change (some file) fresh] else []

/-- `Notify.prototype.manually` (lines 109-129).  It never mutates the
state and never emits: it either returns silently (no visited file has
a cached stat) or dies with the TypeError of the malformed `fs.stat`
call of line 120.  The ambient filesystem `fs` is never consulted. -/
def manually (fs : FS) (st : NotifyState) (w : Option FSWatcher) : JsOutcome :=
  { state := st, events := [], thrown := manuallyLoop st (sweepFiles st w) }

/-- Lines 166-173, the body the stats callback of `change` would run if
the stat call of line 165 were well formed: store a successful stat in
the cache, return silently on error, resolve the changed identity (the
raw `filename` when the fresh stat reports a directory, the handle path
otherwise) and emit `change` with the fresh stat.  Unreachable in the
source (see `changeCb`); embedded separately so the resolution logic
can be inspected. -/
def changeStatsBody (st : NotifyState) (path : String) (filename : Option String)
    (res : Option Stats) : NotifyState × List Event :=
  match res with
  | none => (st, [])
  | some stat =>
      let st1 := { st with FStats := ainsert path stat st.FStats }
      let file := if stat.isDir then filename else some path
      (st1, [Event.change file stat])

/-- `Notify.prototype.change` (lines 158-175).  Line 159 calls
`manually` when `filename` is falsy but does not return, so the handler
falls through to the primary path in every case.  Line 165 then calls
`fs.stat(fs, function stats(err, stat) ...)`: the path argument is the
`fs` module object rather than `FSWatcher.path`, so `fs.stat` throws a
synchronous TypeError and the callback of lines 166-173 (cache update,
directory resolution, change emission — see `changeStatsBody`) never
runs.  The ambient filesystem is never consulted. -/
def changeCb (fs : FS) (st : NotifyState) (w : FSWatcher) (event : String)
    (filename : Option String) : JsOutcome :=
  let m := if falsyName filename then manually fs st (some w) else JsOutcome.pure st
  match m.thrown with
  | some _ => m
  | none => { m with thrown := some JsError.typeError }

/-- `Notify.prototype.error` (lines 185-195).  Line 187 reads the path
off the watcher; line 190, `delete this.FSWatcher[path]`, then reads
the field `FSWatcher`, which no code ever assigns (the constructor
creates `FSWatchers`, line 15), so the property access on `undefined`
throws a TypeError: neither map entry is deleted and the `removed`
emission of line 194 is never reached.  The exception propagates out of
the OS error callback. -/
def errorCb (st : NotifyState) (w : FSWatcher) : JsOutcome :=
  { state := st, events := [], thrown := some JsError.typeError }

/-- `Notify.prototype.reset` (lines 137-146).  Line 138 reads
`this.FSWatcher[path]` on the same undefined field `FSWatcher`,
throwing a TypeError before any teardown or re-registration happens. -/
def reset (st : NotifyState) (path : String) : JsOutcome :=
  { state := st, events := [], thrown := some JsError.typeError }

/-- `Notify.prototype.close` (lines 55-71): close every watcher stored
in `FSWatchers`, replace both `FSWatchers` and `FStats` by fresh empty
objects, emit a `close` event and return.  `retries` and `maxRetries`
are not touched, and nothing guards against a second call. -/
def close (st : NotifyState) : JsOutcome :=
  { state := { st with FSWatchers := [], FStats := [] },
    events := [Event.closed], thrown := none }

/-- `Notify.prototype.add` (lines 35-47).  Line 42 passes `fs.exist` as
the filter predicate to `async.filter`; the fs module has no property
`exist` (the real API is `fs.exists`), so the predicate is `undefined`
and the async library throws a TypeError the first time it invokes it:
any non-empty input dies before a single path is filtered or watched,
while the empty input completes with the empty result and watches
nothing.  Line 43, `files.forEach(self.watch)`, is never reached with a
non-empty list (and would itself fail: it passes `watch` unbound, so
`this` is `undefined` inside it under strict mode).  The filesystem is
never consulted. -/
def add (fs : FS) (st : NotifyState) (files : List String) : JsOutcome :=
  match files with
  | [] => JsOutcome.pure st
  | _ :: _ => { state := st, events := [], thrown := some JsError.typeError }

/-- Line 39: a single non-array path argument is first normalized into
a one-element array. -/
def addSingle (fs : FS) (st : NotifyState) (file : String) : JsOutcome :=
  add fs st [file]

/-- The synchronous part of `Notify.prototype.watch` (lines 80-100),
invoked with a correct receiver: issue the initial `fs.stat(path, ...)`
(line 85; its completion is asynchronous, see `watchStatsCb`), create a
new OS watcher via `fs.watch(path)`, store it in `FSWatchers` keyed by
the path, tag it with the path and attach the change and error
handlers.  `newId` is the identity of the freshly created OS handle.
Nothing closes a watcher previously stored under the same path. -/
def watchStart (st : NotifyState) (path : String) (newId : Nat) : NotifyState :=
  { st with FSWatchers := ainsert path newId st.FSWatchers }

/-- Lines 85-87, the callback of the initial stat issued by `watch`:
`if (stat) self.FStats[path] = stat` — on success the cache entry is
written unconditionally (no check that the path is still registered at
completion time), on error nothing at all happens, so the cache entry
is never created for that registration. -/
def watchStatsCb (st : NotifyState) (path : String) (res : Option Stats) : NotifyState :=
  match res with
  | some s => { st with FStats := ainsert path s st.FStats }
  | none => st

/-! ### The event-driven machine

For the watch-registry invariant the asynchronous completion of the
initial stat issued by `watch` matters, so the system is modelled as a
machine: the instance state, the multiset of paths whose initial stat
is still in flight, the id of the next OS handle `fs.watch` will hand
out, and the OS handles created and not yet closed.  `close` closes
exactly the handles stored in `FSWatchers` at that moment (lines
59-63).  The result an in-flight stat completes with is carried on the
completion step itself, which models a filesystem that external
processes mutate between the issue and the completion of a stat. -/

structure Machine where
  st : NotifyState
  pendingInit : List String
  nextId : Nat
  liveHandles : List (Nat × String)
  deriving DecidableEq, Repr

/-- A fresh instance: no watchers, no pending stats, no live handles. -/
def Machine.start : Machine :=
  { st := NotifyState.init, pendingInit := [], nextId := 0, liveHandles := [] }

/-- The operations that can fire on an instance: the engine operations
and OS callbacks, plus the completion of an in-flight initial stat. -/
inductive Op where
  | watch (path : String)
  | initStatDone (path : String) (res : Option Stats)
  | closeAll
  | errorEvt (w : FSWatcher)
  | changeEvt (w : FSWatcher) (event : String) (filename : Option String)
  | manualSweep (w : Option FSWatcher)
  | resetPath (path : String)
  | addFiles (files : List String)
  deriving Repr

/-- One step of the machine: apply the corresponding method embedding
to the instance state and keep the handle and pending-stat bookkeeping
in line with it. -/
def applyOp (fs : FS) (m : Machine) : Op → Machine
  | Op.watch path =>
      { st := watchStart m.st path m.nextId,
        pendingInit := path :: m.pendingInit,
        nextId := m.nextId + 1,
        liveHandles := (m.nextId, path) :: m.liveHandles }
  | Op.initStatDone path res =>
      if path ∈ m.pendingInit then
        { m with st := watchStatsCb m.st path res,
                 pendingInit := m.pendingInit.erase path }
      else m
  | Op.closeAll =>
      { m with st := (close m.st).state,
               liveHandles := m.liveHandles.filter
                 (fun h => alookup h.2 m.st.FSWatchers != some h.1) }
  | Op.errorEvt w => { m with st := (errorCb m.st w).state }
  | Op.changeEvt w ev fn => { m with st := (changeCb fs m.st w ev fn).state }
  | Op.manualSweep w => { m with st := (manually fs m.st w).state }
  | Op.resetPath p => { m with st := (reset m.st p).state }
  | Op.addFiles l => { m with st := (add fs m.st l).state }

/-- At most one live OS handle exists per path. -/
def atMostOneHandle (m : Machine) : Prop :=
  ∀ p : String, m.liveHandles.countP (fun h => h.2 == p) ≤ 1

/-- The key sets of `FSWatchers` and `FStats` agree on every path whose
initial stat is not in flight. -/
def keysSynced (m : Machine) : Prop :=
  ∀ p : String, p ∉ m.pendingInit →
    (p ∈ akeys m.st.FSWatchers ↔ p ∈ akeys m.st.FStats)

/-- The registry invariant stated by the specification: one handle per
path, and synchronized key sets outside the initial-stat window. -/
def registryInvariant (m : Machine) : Prop :=
  atMostOneHandle m ∧ keysSynced m

/-! ### State-preservation helper lemmas -/

theorem manually_state_eq (fs : FS) (st : NotifyState) (w : Option FSWatcher) :
    (manually fs st w).state = st := rfl

theorem changeCb_state_eq (fs : FS) (st : NotifyState) (w : FSWatcher) (ev : String)
    (fn : Option String) : (changeCb fs st w ev fn).state = st := by
  unfold changeCb
  cases hf : falsyName fn
  · rfl
  · show (match (manually fs st (some w)).thrown with
      | some _ => manually fs st (some w)
      | none => { manually fs st (some w) with thrown := some JsError.typeError }).state = st
    cases hm : (manually fs st (some w)).thrown <;> simp [hm, manually_state_eq]

theorem add_state_eq (fs : FS) (st : NotifyState) (files : List String) :
    (add fs st files).state = st := by
  cases files <;> rfl

/-! ### Concrete fixtures -/

/-- A snapshot of a directory. -/
def dirStat : Stats :=
  { mtime := 100, mtimeRef := 1, isDir := true, size := 4096 }

/-- A snapshot of a regular file. -/
def fileStat : Stats :=
  { mtime := 50, mtimeRef := 2, isDir := false, size := 10 }

/-- The same file instant as `fileStat` observed again: equal `mtime`
value, held in a distinct `Date` object. -/
def fileStatAgain : Stats :=
  { mtime := 50, mtimeRef := 3, isDir := false, size := 10 }

/-- A filesystem in which the watched directory exists and reports as a
directory, its contained file exists, and a separate watched file
exists. -/
def fs1 : FS := fun p =>
  if p = "/tmp/dir" then some dirStat
  else if p = "/tmp/dir/file.txt" then some fileStat
  else if p = "/tmp/a.txt" then some fileStat
  else none

/-- The watcher handle created for the directory. -/
def wD : FSWatcher := { id := 0, path := "/tmp/dir" }

/-- The watcher handle created for the file. -/
def wA : FSWatcher := { id := 1, path := "/tmp/a.txt" }

/-- A state in which both the directory and the file are watched and
both initial stats have been cached. -/
def stBoth : NotifyState :=
  { FSWatchers := [("/tmp/dir", 0), ("/tmp/a.txt", 1)],
    FStats := [("/tmp/dir", dirStat), ("/tmp/a.txt", fileStat)],
    retries := [], maxRetries := 5 }

/-- A state in which the directory is watched, with other unrelated
paths cached, but no cache entry for the directory itself yet. -/
def stNoCacheD : NotifyState :=
  { FSWatchers := [("/tmp/dir", 0), ("/tmp/a.txt", 1)],
    FStats := [("/tmp/a.txt", fileStat)],
    retries := [], maxRetries := 5 }

/-! ### The claims -/

/-- C1: the claim says that a raw notification (handle for directory D,
change, F) whose fresh stat of D succeeds and reports a directory makes
the engine emit a change event whose identity is F.  The code instead
passes the `fs` module object to `fs.stat` (line 165), so on the
failing input — the notification (wD, change, file.txt) in a state
where /tmp/dir is watched, under a filesystem in which /tmp/dir stats
successfully as a directory — the handler emits nothing, changes
nothing, never consults the filesystem, and a TypeError propagates.
The intended resolution logic, run on the fresh directory snapshot the
claim assumes, would have emitted exactly the change for F
(`changeStatsBody`, the unreachable callback body). -/
theorem c1_directory_resolution_code_bug :
    changeCb fs1 stBoth wD "change" (some "file.txt")
      = { state := stBoth, events := [], thrown := some JsError.typeError } ∧
    fs1 "/tmp/dir" = some dirStat ∧
    dirStat.isDir = true ∧
    changeStatsBody stBoth "/tmp/dir" (some "file.txt") (some dirStat)
      = ({ stBoth with FStats := ainsert "/tmp/dir" dirStat stBoth.FStats },
         [Event.change (some "file.txt") dirStat]) := by
  refine ⟨by decide, by decide, by decide, by decide⟩

/-- C2: the claim says an OS error callback for a watched path P tears
down both map entries for P and emits exactly one removed(P) event,
never fatally.  On the failing input — the error callback for the
watched path /tmp/dir — line 190 reads the undefined field `FSWatcher`
(the real field is `FSWatchers`) and throws a TypeError: both map
entries survive, no removed event is emitted, and the exception
propagates out of the OS callback (an uncaught exception, fatal for the
process, not merely for the path). -/
theorem c2_error_teardown_code_bug :
    errorCb stBoth wD
      = { state := stBoth, events := [], thrown := some JsError.typeError } ∧
    alookup "/tmp/dir" (errorCb stBoth wD).state.FSWatchers = some 0 ∧
    alookup "/tmp/dir" (errorCb stBoth wD).state.FStats = some dirStat ∧
    (errorCb stBoth wD).events.count (Event.removed "/tmp/dir") = 0 := by
  refine ⟨by decide, by decide, by decide, by decide⟩

/-- C3: the claim says a raw notification with no filename triggers a
manual sweep scoped to the handle path only and does not also run the
primary re-stat-and-emit path.  The scoping half is true: the sweep
visits exactly the handle path even though an unrelated path is watched
and cached.  But line 159 has no return, so the handler falls through
into the primary path: on the failing input — the notification
(wD, change, no filename) in a state where the sweep itself completes
cleanly (no cached stat for /tmp/dir) — the handler still dies with the
TypeError of the malformed primary-path stat call of line 165, proving
the primary path ran for that notification. -/
theorem c3_filename_omitted_code_bug :
    sweepFiles stNoCacheD (some wD) = ["/tmp/dir"] ∧
    manually fs1 stNoCacheD (some wD) = JsOutcome.pure stNoCacheD ∧
    changeCb fs1 stNoCacheD wD "change" none
      = { state := stNoCacheD, events := [], thrown := some JsError.typeError } := by
  refine ⟨by decide, by decide, by decide⟩

/-- C4: the claim says the manual sweep re-stats each cached path,
compares modification times by value, emits change exactly on a
difference, and always refreshes the cache entry.  On the failing
input — a sweep scoped to the watched path /tmp/a.txt, which has a
cached snapshot — line 120 calls `fs.stat` with the callback as the
path, so the sweep throws a TypeError: no re-stat happens, nothing is
emitted, and the cache entry is not refreshed.  Moreover the comparison
that would gate emission (line 124, embedded as `manuallyTestBody`)
compares the `Date` objects by reference, not the instants by value: a
fresh snapshot of the unchanged instant would still be reported as a
change, and the cache is not refreshed there either. -/
theorem c4_manual_sweep_code_bug :
    manually fs1 stBoth (some wA)
      = { state := stBoth, events := [], thrown := some JsError.typeError } ∧
    (manually fs1 stBoth (some wA)).state.FStats = stBoth.FStats ∧
    fileStat.mtime = fileStatAgain.mtime ∧
    manuallyTestBody "/tmp/a.txt" fileStat fileStatAgain
      = [Event.change (some "/tmp/a.txt") fileStatAgain] := by
  refine ⟨by decide, by decide, by decide, by decide⟩

/-- C5: the claim says add never registers a non-existent path and
registers every existing path.  On the failing input — add of the
one-element list [/tmp/a.txt] on a fresh instance, under a filesystem
in which /tmp/a.txt exists — line 42 hands the undefined property
`fs.exist` (the real API is `fs.exists`) to `async.filter` as the
predicate, so add throws a TypeError: the existing path is never
registered, no watcher-map entry and no stat-cache entry appear.  (The
half of the claim about non-existent paths holds vacuously: nothing is
ever registered.) -/
theorem c5_add_existence_filter_code_bug :
    fs1 "/tmp/a.txt" = some fileStat ∧
    add fs1 NotifyState.init ["/tmp/a.txt"]
      = { state := NotifyState.init, events := [],
          thrown := some JsError.typeError } ∧
    addSingle fs1 NotifyState.init "/tmp/a.txt"
      = add fs1 NotifyState.init ["/tmp/a.txt"] ∧
    (add fs1 NotifyState.init ["/tmp/a.txt"]).state.FSWatchers = [] ∧
    (add fs1 NotifyState.init ["/tmp/a.txt"]).state.FStats = [] := by
  refine ⟨by decide, by decide, by decide, by decide, by decide⟩

/-- C6 counterexample: the claim says two successive close calls emit
exactly one close event in total.  Closing the concrete watched state
twice emits one close event per call, two in total. -/
theorem c6_close_counterexample :
    ((close stBoth).events ++ (close (close stBoth).state).events).count Event.closed
      = 2 ∧
    ¬ ((close stBoth).events ++ (close (close stBoth).state).events).count Event.closed
      = 1 := by
  refine ⟨by decide, by decide⟩

/-- C6 amended: calling close twice produces exactly one close event
per call (two in total), and after each of the two calls both the
watcher map and the stat cache are empty; neither call throws. -/
theorem c6_close_idempotent_amended (st : NotifyState) :
    ((close st).events ++ (close (close st).state).events).count Event.closed = 2 ∧
    (close st).state.FSWatchers = [] ∧
    (close st).state.FStats = [] ∧
    (close (close st).state).state.FSWatchers = [] ∧
    (close (close st).state).state.FStats = [] ∧
    (close st).thrown = none ∧
    (close (close st).state).thrown = none := by
  refine ⟨rfl, rfl, rfl, rfl, rfl, rfl, rfl⟩

/-- C6 witness: the amended statement at the concrete watched state. -/
theorem c6_close_idempotent_amended_witness :
    ((close stBoth).events ++ (close (close stBoth).state).events).count Event.closed
        = 2 ∧
    (close stBoth).state.FSWatchers = [] ∧
    (close stBoth).state.FStats = [] ∧
    (close (close stBoth).state).state.FSWatchers = [] ∧
    (close (close stBoth).state).state.FStats = [] ∧
    (close stBoth).thrown = none ∧
    (close (close stBoth).state).thrown = none :=
  c6_close_idempotent_amended stBoth

/-- C7: the claim says reset(P) tears the watch for P down exactly once
and immediately re-registers it with a fresh handle and no removed
event.  On the failing input — reset of the watched path /tmp/a.txt —
line 138 reads `this.FSWatcher[path]` on the undefined field
`FSWatcher` and throws a TypeError: no teardown and no re-registration
occur, the old handle (id 1) is still the registered one, and the
exception propagates to the caller. -/
theorem c7_reset_code_bug :
    reset stBoth "/tmp/a.txt"
      = { state := stBoth, events := [], thrown := some JsError.typeError } ∧
    alookup "/tmp/a.txt" (reset stBoth "/tmp/a.txt").state.FSWatchers = some 1 := by
  refine ⟨by decide, by decide⟩

/-- C8: the claim says a failing re-stat during event resolution or
during the manual sweep drops that notification silently: no event, no
exception, no teardown, entries unchanged.  The silent-drop guards do
exist in the source (line 167 and line 121), but they sit inside
callbacks that can never run: the stat invocations themselves are
malformed, so on the failing input — a change notification for the
watched file, and a manual sweep over it — the re-stat attempt fails by
raising a synchronous TypeError that propagates out of the handler.
The entries survive and nothing is emitted, but the failure is not
silent.  The unreachable callback `changeStatsBody` shows the intended
silent drop on an error result. -/
theorem c8_stat_failure_not_silent_code_bug :
    (changeCb fs1 stBoth wA "change" (some "a.txt")).thrown
      = some JsError.typeError ∧
    (manually fs1 stBoth (some wA)).thrown = some JsError.typeError ∧
    (changeCb fs1 stBoth wA "change" (some "a.txt")).events = [] ∧
    (changeCb fs1 stBoth wA "change" (some "a.txt")).state = stBoth ∧
    changeStatsBody stBoth "/tmp/a.txt" (some "a.txt") none = (stBoth, []) := by
  refine ⟨by decide, by decide, by decide, by decide, by decide⟩

/-- C10: close modifies only the watcher map and the stat cache: the
per-path retry-counter map and the maxRetries configuration value are
unchanged by close, for every instance state. -/
theorem c10_close_frame (st : NotifyState) :
    (close st).state.retries = st.retries ∧
    (close st).state.maxRetries = st.maxRetries ∧
    (close st).state.FSWatchers = [] ∧
    (close st).state.FStats = [] := by
  refine ⟨rfl, rfl, rfl, rfl⟩

/-- C10 witness: the frame condition at the concrete watched state. -/
theorem c10_close_frame_witness :
    (close stBoth).state.retries = stBoth.retries ∧
    (close stBoth).state.maxRetries = stBoth.maxRetries ∧
    (close stBoth).state.FSWatchers = [] ∧
    (close stBoth).state.FStats = [] :=
  c10_close_frame stBoth

/-! ### C9: the registry invariant -/

/-- Fresh machine after watching one path: the initial stat is in
flight. -/
def mWatched : Machine :=
  applyOp fs1 Machine.start (Op.watch "/tmp/a.txt")

/-- The initial stat of the watched path completes with an error (the
path vanished between `fs.watch` and the stat completing): the cache
entry is never created, the registry entry survives, and no stat is in
flight any more. -/
def mStatErr : Machine :=
  applyOp fs1 mWatched (Op.initStatDone "/tmp/a.txt" none)

/-- The same path watched a second time: `watch` overwrites the map
entry without closing the previous OS handle, so two live handles for
the path exist. -/
def mDoubleWatch : Machine :=
  applyOp fs1 mWatched (Op.watch "/tmp/a.txt")

/-- C9 counterexample: the claim says the key sets of the watcher map
and the stat cache agree except while an initial stat is in flight, and
that at most one handle exists per path, preserved by every operation.
Two concrete two-step runs refute it: after a registration whose
initial stat completes with an error there is no stat in flight, yet
the path sits in the watcher map and not in the stat cache; and after
watching the same path twice two live OS handles for it exist. -/
theorem c9_registry_invariant_counterexample :
    mStatErr.pendingInit = [] ∧
    ¬ keysSynced mStatErr ∧
    ¬ atMostOneHandle mDoubleWatch := by
  refine ⟨by decide, ?_, ?_⟩
  · intro h
    have h2 := (h "/tmp/a.txt" (by decide)).mp (by decide)
    revert h2
    decide
  · intro h
    have h2 := h "/tmp/a.txt"
    revert h2
    decide

/-- C9 amended: at most one handle per path is stored in the watcher
map, and key-set agreement outside initial-stat windows is preserved by
the change, error, reset, manual-sweep, add and close operations
unconditionally; a watch registration preserves it provided the path
has no live handle yet, and the completion of an in-flight initial stat
preserves it only when the stat succeeds and the path is still
registered — an erroring completion or a double watch breaks the
invariant, as the counterexample shows. -/
theorem c9_registry_invariant_amended (fs : FS) (m : Machine)
    (hinv : registryInvariant m) :
    (∀ w ev fn, registryInvariant (applyOp fs m (Op.changeEvt w ev fn))) ∧
    (∀ w, registryInvariant (applyOp fs m (Op.errorEvt w))) ∧
    (∀ p, registryInvariant (applyOp fs m (Op.resetPath p))) ∧
    (∀ w, registryInvariant (applyOp fs m (Op.manualSweep w))) ∧
    (∀ l, registryInvariant (applyOp fs m (Op.addFiles l))) ∧
    registryInvariant (applyOp fs m Op.closeAll) ∧
    (∀ p, m.liveHandles.countP (fun h => h.2 == p) = 0 →
      registryInvariant (applyOp fs m (Op.watch p))) ∧
    (∀ p s, p ∈ m.pendingInit → p ∈ akeys m.st.FSWatchers →
      registryInvariant (applyOp fs m (Op.initStatDone p (some s)))) := by
  obtain ⟨hone, hsync⟩ := hinv
  refine ⟨?_, ?_, ?_, ?_, ?_, ?_, ?_, ?_⟩
  · intro w ev fn
    have h1 : applyOp fs m (Op.changeEvt w ev fn) = m := by
      show { m with st := (changeCb fs m.st w ev fn).state } = m
      rw [changeCb_state_eq]
    rw [h1]
    exact ⟨hone, hsync⟩
  · intro w
    have h1 : applyOp fs m (Op.errorEvt w) = m := rfl
    rw [h1]
    exact ⟨hone, hsync⟩
  · intro p
    have h1 : applyOp fs m (Op.resetPath p) = m := rfl
    rw [h1]
    exact ⟨hone, hsync⟩
  · intro w
    have h1 : applyOp fs m (Op.manualSweep w) = m := rfl
    rw [h1]
    exact ⟨hone, hsync⟩
  · intro l
    have h1 : applyOp fs m (Op.addFiles l) = m := by
      show { m with st := (add fs m.st l).state } = m
      rw [add_state_eq]
    rw [h1]
    exact ⟨hone, hsync⟩
  · constructor
    · intro p
      show (m.liveHandles.filter
          (fun h => alookup h.2 m.st.FSWatchers != some h.1)).countP
          (fun h => h.2 == p) ≤ 1
      exact le_trans (List.Sublist.countP_le _ (List.filter_sublist _)) (hone p)
    · intro p hp
      show p ∈ akeys (close m.st).state.FSWatchers
        ↔ p ∈ akeys (close m.st).state.FStats
      simp [close, akeys]
  · intro p hp0
    constructor
    · intro q
      show ((m.nextId, p) :: m.liveHandles).countP (fun h => h.2 == q) ≤ 1
      rw [List.countP_cons]
      by_cases hq : p = q
      · subst hq
        simp only [hp0]
        simp
      · have hbe : (((m.nextId, p)).2 == q) = false := by
          simp [hq]
        rw [hbe]
        simpa using hone q
    · intro q hq
      have hq' : q ∉ p :: m.pendingInit := hq
      have hq1 : q ≠ p := fun h => hq' (by rw [h]; exact List.mem_cons_self p m.pendingInit)
      have hq2 : q ∉ m.pendingInit := fun h => hq' (List.mem_cons_of_mem _ h)
      show q ∈ akeys (ainsert p m.nextId m.st.FSWatchers) ↔ q ∈ akeys m.st.FStats
      rw [mem_akeys_ainsert]
      constructor
      · rintro (h | h)
        · exact absurd h hq1
        · exact (hsync q hq2).mp h
      · intro h
        exact Or.inr ((hsync q hq2).mpr h)
  · intro p s hp hpw
    have happ : applyOp fs m (Op.initStatDone p (some s))
        = { m with st := { m.st with FStats := ainsert p s m.st.FStats },
                   pendingInit := m.pendingInit.erase p } := by
      simp [applyOp, hp, watchStatsCb]
    rw [happ]
    constructor
    · intro q
      exact hone q
    · intro q hq
      by_cases hqp : q = p
      · subst hqp
        show q ∈ akeys m.st.FSWatchers ↔ q ∈ akeys (ainsert q s m.st.FStats)
        rw [mem_akeys_ainsert]
        exact ⟨fun _ => Or.inl rfl, fun _ => hpw⟩
      · have hq2 : q ∉ m.pendingInit := fun hmem =>
          hq ((List.mem_erase_of_ne hqp).mpr hmem)
        show q ∈ akeys m.st.FSWatchers ↔ q ∈ akeys (ainsert p s m.st.FStats)
        rw [mem_akeys_ainsert]
        constructor
        · intro h
          exact Or.inr ((hsync q hq2).mp h)
        · rintro (h | h)
          · exact absurd h hqp
          · exact (hsync q hq2).mpr h

/-- C9 witness: the amended preservation statement applied to the
fresh machine, which satisfies the invariant; in particular closing it
preserves the invariant. -/
theorem c9_registry_invariant_amended_witness :
    registryInvariant (applyOp fs1 Machine.start Op.closeAll) := by
  have hstart : registryInvariant Machine.start := by
    constructor
    · intro p
      show ([] : List (Nat × String)).countP (fun h => h.2 == p) ≤ 1
      simp
    · intro p hp
      show p ∈ akeys ([] : List (String × Nat))
        ↔ p ∈ akeys ([] : List (String × Stats))
      simp [akeys]
  exact (c9_registry_invariant_amended fs1 Machine.start hstart).2.2.2.2.2.1

end FsNotify
